import Mathlib

/-!
Verification of the `mini_file_system` scanner/aggregator
(`src/utils/file_scanner.py`) together with the duplicate-filtering view of
`src/utils/report_writer.py`.

Embedding conventions:
* Python strings are lists of characters (`Str`).
* The filesystem is presented to the scanner the way `os.walk` presents it:
  a finite list of `FSEntry` values, one per regular file, carrying the
  containing directory, the base name, and the results the `os.path.getsize`
  and `os.path.getmtime` calls would return for that file (`Except` so that
  OSError-style failures are representable).
* The `FileScanner` object is `ScannerState`; `self.xxx` mutation becomes
  explicit state threading.  The `logging` collaborator is modelled by the
  `log` field: the stream of diagnostics the scanner has emitted so far.
* A Python `raise` inside `_extract_metadata` becomes an `Except.error`
  result paired with the state accumulated up to the raise point.
-/

/-- Python strings, modelled as lists of characters. -/
abbrev Str := List Char

/-- The character list of a Lean string literal. -/
def str (x : String) : Str := x.data

/-- Decimal rendering of a natural number (`str(n)` / f-string interpolation). -/
def toStr (n : Nat) : Str := (Nat.repr n).data

/-- `str.lower()` restricted to ASCII, applied characterwise. -/
def toLowerStr (s : Str) : Str := s.map Char.toLower

/-- Python's substring test `needle in hay`. -/
def hasSubstr (needle : Str) : Str → Bool
  | [] => needle.isEmpty
  | c :: rest => needle.isPrefixOf (c :: rest) || hasSubstr needle rest

/-- One step of `os.path.basename`: a path separator resets the accumulated
final component. -/
def basenameStep (acc : Str) (c : Char) : Str :=
  if c = '/' then [] else acc ++ [c]

/-- `os.path.basename`: the part of the path after the last slash. -/
def basenameL (p : Str) : Str := p.foldl basenameStep []

def startsWithSlash : Str → Bool
  | [] => false
  | c :: _ => c = '/'

def endsWithSlash (s : Str) : Bool := startsWithSlash s.reverse

/-- `posixpath.join` for the two-argument call `os.path.join(root, filename)`:
an absolute second component replaces the first; otherwise the components are
joined, inserting a slash unless one is already present. -/
def osJoin (a b : Str) : Str :=
  if startsWithSlash b then b
  else if a.isEmpty then b
  else if endsWithSlash a then a ++ b
  else a ++ ('/' :: b)

/-- The extension component of `posixpath.splitext`, applied to a base name
(no slashes): the suffix of the name starting at its last dot — unless every
character before that dot is itself a dot (leading dots never start an
extension), in which case the extension is empty. -/
def splitextExt (n : Str) : Str :=
  let afterRev := n.reverse.takeWhile (fun c => !(c = '.'))
  if afterRev.length = n.length then []
  else if (n.take (n.length - afterRev.length - 1)).all (fun c => c = '.') then []
  else '.' :: afterRev.reverse

/-- `os.path.splitext(path)[1] or "<no-ext>"` as the scanner computes it.
`splitext` only ever examines the part of the path after the last separator,
i.e. the base name. -/
def extOrSentinel (p : Str) : Str :=
  let e := splitextExt (basenameL p)
  if e.isEmpty then str "<no-ext>" else e

/-- Gregorian civil date (year, month, day) from a count of days since
1970-01-01: the standard era-decomposition algorithm used by C/Python time
conversion, stated for nonnegative day counts. -/
def civilFromDays (days : Nat) : Nat × Nat × Nat :=
  let z := days + 719468
  let era := z / 146097
  let doe := z % 146097
  let yoe := (doe - doe / 1460 + doe / 36524 - doe / 146096) / 365
  let doy := doe - (365 * yoe + yoe / 4 - yoe / 100)
  let mp := (5 * doy + 2) / 153
  let d := doy - (153 * mp + 2) / 5 + 1
  let m := if mp < 10 then mp + 3 else mp - 9
  let y := yoe + era * 400 + (if m ≤ 2 then 1 else 0)
  (y, m, d)

/-- Left-pad a decimal rendering with zeros to the given width
(`strftime` field padding). -/
def padNum (w n : Nat) : Str :=
  List.replicate (w - (toStr n).length) '0' ++ toStr n

/-- `datetime.fromtimestamp(t).strftime("%Y-%m-%d %H:%M:%S")` for a
whole-second timestamp `t` (UTC). -/
def formatTimestamp (t : Nat) : Str :=
  let days := t / 86400
  let secs := t % 86400
  let ymd := civilFromDays days
  padNum 4 ymd.1 ++ str "-" ++ padNum 2 ymd.2.1 ++ str "-" ++ padNum 2 ymd.2.2
    ++ str " " ++ padNum 2 (secs / 3600) ++ str ":" ++ padNum 2 (secs % 3600 / 60)
    ++ str ":" ++ padNum 2 (secs % 60)

deriving instance DecidableEq for Except

/-- The metadata dict yielded for each successfully processed file. -/
structure FileRecord where
  path : Str
  size : Nat
  extension : Str
  modified : Str
deriving DecidableEq

inductive LogLevel where
  | error
  | warning
  | info
deriving DecidableEq

/-- One diagnostic sent to the logging collaborator. -/
structure LogEvent where
  level : LogLevel
  msg : Str
deriving DecidableEq

/-- One regular file as `os.walk` presents it: containing directory, base
name, and the stat results the filesystem returns for it (`getsize` and
`getmtime` may fail with an OSError message). -/
structure FSEntry where
  dir : Str
  name : Str
  sizeResult : Except Str Nat
  mtimeResult : Except Str Nat
deriving DecidableEq

/-- The full path `os.path.join(root, filename)` of a walked entry. -/
def fullPath (e : FSEntry) : Str := osJoin e.dir e.name

/-- The `FileScanner` object: configuration, counters, aggregates, and the
stream of diagnostics it has emitted. -/
structure ScannerState where
  root_path : Str
  large_file_threshold_bytes : Nat
  total_discovered : Nat
  total_processed : Nat
  total_failed : Nat
  extension_count : List (Str × Nat)
  large_files : List Str
  duplicates : List (Str × List Str)
  log : List LogEvent
deriving DecidableEq

/-- `FileScanner.__init__`: the megabyte threshold is converted to bytes once,
counters and aggregates start empty. -/
def initScanner (root_path : Str) (large_file_threshold_mb : Nat) : ScannerState :=
  { root_path := root_path
    large_file_threshold_bytes := large_file_threshold_mb * 1024 * 1024
    total_discovered := 0
    total_processed := 0
    total_failed := 0
    extension_count := []
    large_files := []
    duplicates := []
    log := [] }

/-- `defaultdict(int)` increment: bump the count stored under key `k`
(insertion order preserved, a new key is appended at the end). -/
def bump (k : Str) : List (Str × Nat) → List (Str × Nat)
  | [] => [(k, 1)]
  | (k2, v) :: rest => if k2 = k then (k2, v + 1) :: rest else (k2, v) :: bump k rest

/-- `defaultdict(list)` append: add `p` to the list stored under key `k`
(insertion order preserved, a new key is appended at the end). -/
def dappend (k : Str) (p : Str) : List (Str × List Str) → List (Str × List Str)
  | [] => [(k, [p])]
  | (k2, v) :: rest => if k2 = k then (k2, v ++ [p]) :: rest else (k2, v) :: dappend k p rest

/-- Lookup in the duplicate index (`defaultdict` read: missing keys are []). -/
def lookupD (m : List (Str × List Str)) (k : Str) : List Str :=
  match m with
  | [] => []
  | (k2, v) :: rest => if k2 = k then v else lookupD rest k

/-- Total of all counts in the extension index. -/
def sumCounts (m : List (Str × Nat)) : Nat := (m.map (fun kv => kv.2)).sum

/-- Total number of paths across all duplicate-index groups. -/
def dupTotal (m : List (Str × List Str)) : Nat := (m.map (fun kv => kv.2.length)).sum

/-- The message of the `RuntimeError` raised for a simulated failure. -/
def simFailMsg : Str :=
  str "Simulated failure — filename contains " ++ (Char.ofNat 39 :: str "fail") ++ [Char.ofNat 39]

def zeroByteWarning (path : Str) : LogEvent :=
  { level := LogLevel.warning, msg := str "Zero-byte file detected: " ++ path }

def largeFileWarning (thresholdBytes : Nat) (path : Str) (size : Nat) : LogEvent :=
  { level := LogLevel.warning
    msg := str "Large file (>" ++ toStr (thresholdBytes / (1024 * 1024)) ++ str " MB): "
      ++ path ++ str " (" ++ toStr size ++ str " bytes)" }

def failedLog (path : Str) (cause : Str) : LogEvent :=
  { level := LogLevel.error, msg := str "[FAILED] " ++ path ++ str " → " ++ cause }

/-- `FileScanner._extract_metadata`, with the scanner state threaded
explicitly: each Python raise point returns the state accumulated so far. -/
def extract_metadata (s : ScannerState) (path : Str) (fs : FSEntry) :
    Except Str FileRecord × ScannerState :=
  if hasSubstr (str "fail") (toLowerStr (basenameL path)) then
    (Except.error simFailMsg, s)
  else
    match fs.sizeResult with
    | Except.error m => (Except.error m, s)
    | Except.ok size =>
      let ext := extOrSentinel path
      match fs.mtimeResult with
      | Except.error m => (Except.error m, s)
      | Except.ok t =>
        let modified := formatTimestamp t
        let s1 := { s with extension_count := bump ext s.extension_count }
        let s2 :=
          if size = 0 then { s1 with log := s1.log ++ [zeroByteWarning path] }
          else if s.large_file_threshold_bytes < size then
            { s1 with large_files := s1.large_files ++ [path]
                      log := s1.log ++ [largeFileWarning s.large_file_threshold_bytes path size] }
          else s1
        let s3 := { s2 with duplicates := dappend (basenameL path) path s2.duplicates }
        (Except.ok { path := path, size := size, extension := ext, modified := modified }, s3)

/-- One iteration of the loop body of `FileScanner.scan` for a single walked
file: count it discovered, attempt extraction, and yield either the metadata
(counting it processed) or `None` (counting it failed and logging the cause). -/
def scanStep (s : ScannerState) (e : FSEntry) : Option FileRecord × ScannerState :=
  let full_path := fullPath e
  let sd := { s with total_discovered := s.total_discovered + 1 }
  match extract_metadata sd full_path e with
  | (Except.ok meta, s2) =>
      (some meta, { s2 with total_processed := s2.total_processed + 1 })
  | (Except.error m, s2) =>
      (none, { s2 with total_failed := s2.total_failed + 1
                       log := s2.log ++ [failedLog full_path m] })

/-- The full walk of `FileScanner.scan`: the list of yielded values and the
final scanner state. -/
def scanList (s : ScannerState) : List FSEntry → List (Option FileRecord) × ScannerState
  | [] => ([], s)
  | e :: rest =>
    let r1 := scanStep s e
    let r2 := scanList r1.2 rest
    (r1.1 :: r2.1, r2.2)

def counterMismatchMsg (s : ScannerState) : Str :=
  str "Counter mismatch: discovered=" ++ toStr s.total_discovered
    ++ str ", processed=" ++ toStr s.total_processed
    ++ str ", failed=" ++ toStr s.total_failed

/-- `FileScanner._verify_counters`: raise `RuntimeError` if the counter
invariant is violated, otherwise do nothing. -/
def verify_counters (s : ScannerState) : Except Str Unit :=
  if s.total_discovered ≠ s.total_processed + s.total_failed
  then Except.error (counterMismatchMsg s)
  else Except.ok ()

/-- `FileScanner.scan` consumed to exhaustion: walk every entry, then verify
the counters. -/
def runScan (s : ScannerState) (entries : List FSEntry) :
    Except Str (List (Option FileRecord)) × ScannerState :=
  let r := scanList s entries
  match verify_counters r.2 with
  | Except.ok _ => (Except.ok r.1, r.2)
  | Except.error m => (Except.error m, r.2)

/-- The serialisable summary dict returned by `FileScanner.get_summary`. -/
structure ScanSummary where
  total_discovered : Nat
  total_processed : Nat
  total_failed : Nat
  extension_count : List (Str × Nat)
  large_files : List Str
  duplicates : List (Str × List Str)
deriving DecidableEq

/-- `FileScanner.get_summary`: verify the counters, then return a structural
snapshot of counters and aggregates. -/
def get_summary (s : ScannerState) : Except Str ScanSummary × ScannerState :=
  (match verify_counters s with
   | Except.error m => Except.error m
   | Except.ok _ =>
     Except.ok { total_discovered := s.total_discovered
                 total_processed := s.total_processed
                 total_failed := s.total_failed
                 extension_count := s.extension_count
                 large_files := s.large_files
                 duplicates := s.duplicates },
   s)

/-- `FileScanner.report_summary`: one info line per counter, one per
extension/count pair, plus the large-file count. -/
def report_summary (s : ScannerState) : List LogEvent × ScannerState :=
  let lines :=
    [ { level := LogLevel.info, msg := str "Discovered : " ++ toStr s.total_discovered }
    , { level := LogLevel.info, msg := str "Processed  : " ++ toStr s.total_processed }
    , { level := LogLevel.info, msg := str "Failed     : " ++ toStr s.total_failed } ]
    ++ s.extension_count.map (fun kv =>
        { level := LogLevel.info
          msg := str "  " ++ kv.1 ++ str " → " ++ toStr kv.2 ++ str " file(s)" })
    ++ [ { level := LogLevel.info, msg := str "Large files: " ++ toStr s.large_files.length } ]
  (lines, { s with log := s.log ++ lines })

/-- Python's `repr` of a list of strings (simple case: single-quoted items). -/
def reprPaths (ps : List Str) : Str :=
  str "[" ++ List.intercalate (str ", ")
    (ps.map (fun p => Char.ofNat 39 :: p ++ [Char.ofNat 39])) ++ str "]"

/-- `FileScanner.report_duplicates`: one info line per name with more than one
associated path. -/
def report_duplicates (s : ScannerState) : List LogEvent × ScannerState :=
  let lines := (s.duplicates.filter (fun kv => 1 < kv.2.length)).map (fun kv =>
    { level := LogLevel.info
      msg := str "Duplicate → " ++ kv.1 ++ str ": " ++ reprPaths kv.2 })
  (lines, { s with log := s.log ++ lines })

/-- The duplicates view of `ReportWriter.write_report`: the dict comprehension
keeping only names with more than one path. -/
def duplicatesView (dups : List (Str × List Str)) : List (Str × List Str) :=
  dups.filter (fun kv => 1 < kv.2.length)

/-! ### Helper lemmas about path handling -/

lemma foldl_basenameStep_no_slash (n : Str) (h : ∀ c ∈ n, c ≠ '/') :
    ∀ acc, n.foldl basenameStep acc = acc ++ n := by
  induction n with
  | nil => intro acc; simp
  | cons c rest ih =>
    intro acc
    have hc : c ≠ '/' := h c (by simp)
    simp only [List.foldl_cons, basenameStep, if_neg hc]
    rw [ih (fun d hd => h d (by simp [hd])) (acc ++ [c])]
    simp

lemma basenameL_no_slash (n : Str) (h : ∀ c ∈ n, c ≠ '/') : basenameL n = n := by
  unfold basenameL
  rw [foldl_basenameStep_no_slash n h []]
  simp

lemma basenameL_append_slash (a b : Str) : basenameL (a ++ '/' :: b) = basenameL b := by
  unfold basenameL
  rw [List.foldl_append, List.foldl_cons]
  have : basenameStep (a.foldl basenameStep []) '/' = [] := by simp [basenameStep]
  rw [this]

lemma basenameL_osJoin (d n : Str) (hn : ∀ c ∈ n, c ≠ '/') :
    basenameL (osJoin d n) = n := by
  have hsw : startsWithSlash n = false := by
    cases n with
    | nil => rfl
    | cons c r => simp [startsWithSlash, hn c (by simp)]
  unfold osJoin
  rw [hsw]
  simp only [Bool.false_eq_true, if_false]
  by_cases hd : d.isEmpty
  · rw [if_pos hd]
    exact basenameL_no_slash n hn
  · rw [if_neg hd]
    by_cases he : endsWithSlash d = true
    · rw [if_pos he]
      obtain ⟨d0, rfl⟩ : ∃ d0, d = d0 ++ ['/'] := by
        unfold endsWithSlash startsWithSlash at he
        cases hrev : d.reverse with
        | nil => rw [hrev] at he; cases he
        | cons c r =>
          rw [hrev] at he
          have hc : c = '/' := by simpa using he
          refine ⟨r.reverse, ?_⟩
          have h2 := congrArg List.reverse hrev
          simpa [hc] using h2
      rw [List.append_assoc]
      simp only [List.singleton_append]
      rw [basenameL_append_slash]
      exact basenameL_no_slash n hn
    · rw [if_neg he, basenameL_append_slash]
      exact basenameL_no_slash n hn

/-! ### Helper lemmas about the index structures -/

lemma bump_sum (k : Str) (m : List (Str × Nat)) :
    sumCounts (bump k m) = sumCounts m + 1 := by
  induction m with
  | nil => simp [bump, sumCounts]
  | cons kv rest ih =>
    obtain ⟨k2, v⟩ := kv
    by_cases hk : k2 = k
    · simp [bump, hk, sumCounts]
      omega
    · simp only [bump, if_neg hk]
      simp [sumCounts] at ih ⊢
      omega

lemma dappend_total (k p : Str) (m : List (Str × List Str)) :
    dupTotal (dappend k p m) = dupTotal m + 1 := by
  induction m with
  | nil => simp [dappend, dupTotal]
  | cons kv rest ih =>
    obtain ⟨k2, v⟩ := kv
    by_cases hk : k2 = k
    · simp [dappend, hk, dupTotal]
      omega
    · simp only [dappend, if_neg hk]
      simp [dupTotal] at ih ⊢
      omega

lemma lookupD_dappend_self (k p : Str) (m : List (Str × List Str)) :
    lookupD (dappend k p m) k = lookupD m k ++ [p] := by
  induction m with
  | nil => simp [dappend, lookupD]
  | cons kv rest ih =>
    obtain ⟨k2, v⟩ := kv
    by_cases hk : k2 = k
    · simp [dappend, lookupD, hk]
    · simp [dappend, lookupD, hk, ih]

lemma lookupD_dappend_other (k p k2 : Str) (m : List (Str × List Str)) (h : k2 ≠ k) :
    lookupD (dappend k p m) k2 = lookupD m k2 := by
  induction m with
  | nil =>
    have hk2 : ¬ k = k2 := fun hh => h (Eq.symm hh)
    simp only [dappend, lookupD, if_neg hk2]
  | cons kv rest ih =>
    obtain ⟨k3, v⟩ := kv
    by_cases hk : k3 = k
    · subst hk
      have hk2 : ¬ k3 = k2 := fun hh => h (Eq.symm hh)
      simp only [dappend, if_pos rfl, lookupD, if_neg hk2]
    · simp only [dappend, if_neg hk, lookupD]
      by_cases hk3 : k3 = k2
      · rw [if_pos hk3, if_pos hk3]
      · rw [if_neg hk3, if_neg hk3]
        exact ih

/-! ### Characterisation of `extract_metadata` -/

/-- Successful extraction, fully evaluated: the record that is returned and
the aggregate updates that are performed. -/
lemma extract_ok_eq (s : ScannerState) (p : Str) (e : FSEntry) (size t : Nat)
    (hf : hasSubstr (str "fail") (toLowerStr (basenameL p)) = false)
    (hs : e.sizeResult = Except.ok size)
    (hm : e.mtimeResult = Except.ok t) :
    extract_metadata s p e =
      (Except.ok { path := p, size := size, extension := extOrSentinel p
                   modified := formatTimestamp t },
       { s with extension_count := bump (extOrSentinel p) s.extension_count
                large_files :=
                  if size = 0 then s.large_files
                  else if s.large_file_threshold_bytes < size then s.large_files ++ [p]
                  else s.large_files
                duplicates := dappend (basenameL p) p s.duplicates
                log := s.log ++
                  (if size = 0 then [zeroByteWarning p]
                   else if s.large_file_threshold_bytes < size then
                     [largeFileWarning s.large_file_threshold_bytes p size]
                   else []) }) := by
  unfold extract_metadata
  rw [hf, hs, hm]
  by_cases hz : size = 0
  · simp [hz]
  · by_cases hl : s.large_file_threshold_bytes < size
    · simp [hz, hl]
    · simp [hz, hl]

/-- Either extraction raises (leaving the state untouched), or the simulated
failure check and both stat calls succeeded. -/
lemma extract_dichotomy (s : ScannerState) (p : Str) (e : FSEntry) :
    (∃ m, extract_metadata s p e = (Except.error m, s)) ∨
    (∃ size t, e.sizeResult = Except.ok size ∧ e.mtimeResult = Except.ok t ∧
      hasSubstr (str "fail") (toLowerStr (basenameL p)) = false) := by
  by_cases hf : hasSubstr (str "fail") (toLowerStr (basenameL p)) = true
  · left
    exact ⟨simFailMsg, by simp [extract_metadata, hf]⟩
  · rw [Bool.not_eq_true] at hf
    cases hsz : e.sizeResult with
    | error m =>
      left
      refine ⟨m, ?_⟩
      unfold extract_metadata
      rw [hf, hsz]
      simp
    | ok size =>
      cases hmt : e.mtimeResult with
      | error m =>
        left
        refine ⟨m, ?_⟩
        unfold extract_metadata
        rw [hf, hsz, hmt]
        simp
      | ok t => exact Or.inr ⟨size, t, rfl, rfl, hf⟩

/-- A raising extraction performs no state mutation at all. -/
lemma extract_error_snd (s : ScannerState) (p : Str) (e : FSEntry) (m : Str)
    (h : (extract_metadata s p e).1 = Except.error m) :
    (extract_metadata s p e).2 = s := by
  rcases extract_dichotomy s p e with ⟨m2, hm2⟩ | ⟨size, t, hs, hm', hf⟩
  · rw [hm2]
  · rw [extract_ok_eq s p e size t hf hs hm'] at h
    cases h

/-! ### Characterisation of one scan-loop iteration -/

/-- A failing iteration: the file is counted discovered and failed, the cause
is logged against the full path, `None` is yielded, and nothing else changes. -/
lemma scanStep_of_error (s : ScannerState) (e : FSEntry) (m : Str)
    (h : (extract_metadata { s with total_discovered := s.total_discovered + 1 }
            (fullPath e) e).1 = Except.error m) :
    scanStep s e =
      (none,
       { s with total_discovered := s.total_discovered + 1
                total_failed := s.total_failed + 1
                log := s.log ++ [failedLog (fullPath e) m] }) := by
  have h2 := extract_error_snd _ (fullPath e) e m h
  have hpair : extract_metadata { s with total_discovered := s.total_discovered + 1 }
      (fullPath e) e
      = (Except.error m, { s with total_discovered := s.total_discovered + 1 }) := by
    rw [Prod.ext_iff]
    exact ⟨h, h2⟩
  simp only [scanStep, hpair]

/-- A successful iteration: the file is counted discovered and processed, its
record is yielded, and the aggregates receive exactly the extraction updates. -/
lemma scanStep_of_ok (s : ScannerState) (e : FSEntry) (size t : Nat)
    (hf : hasSubstr (str "fail") (toLowerStr (basenameL (fullPath e))) = false)
    (hs : e.sizeResult = Except.ok size)
    (hm : e.mtimeResult = Except.ok t) :
    scanStep s e =
      (some { path := fullPath e, size := size, extension := extOrSentinel (fullPath e)
              modified := formatTimestamp t },
       { s with total_discovered := s.total_discovered + 1
                total_processed := s.total_processed + 1
                extension_count := bump (extOrSentinel (fullPath e)) s.extension_count
                large_files :=
                  if size = 0 then s.large_files
                  else if s.large_file_threshold_bytes < size then
                    s.large_files ++ [fullPath e]
                  else s.large_files
                duplicates := dappend (basenameL (fullPath e)) (fullPath e) s.duplicates
                log := s.log ++
                  (if size = 0 then [zeroByteWarning (fullPath e)]
                   else if s.large_file_threshold_bytes < size then
                     [largeFileWarning s.large_file_threshold_bytes (fullPath e) size]
                   else []) }) := by
  simp only [scanStep,
    extract_ok_eq { s with total_discovered := s.total_discovered + 1 }
      (fullPath e) e size t hf hs hm]

/-- Every iteration either fails (with the failure-path bookkeeping) or
succeeds after both stat calls and the simulated-failure check. -/
lemma scanStep_dichotomy (s : ScannerState) (e : FSEntry) :
    (∃ m, scanStep s e =
      (none,
       { s with total_discovered := s.total_discovered + 1
                total_failed := s.total_failed + 1
                log := s.log ++ [failedLog (fullPath e) m] })) ∨
    (∃ size t, e.sizeResult = Except.ok size ∧ e.mtimeResult = Except.ok t ∧
      hasSubstr (str "fail") (toLowerStr (basenameL (fullPath e))) = false) := by
  rcases extract_dichotomy { s with total_discovered := s.total_discovered + 1 }
      (fullPath e) e with ⟨m, hm⟩ | ⟨size, t, hs, hm, hf⟩
  · left
    refine ⟨m, scanStep_of_error s e m ?_⟩
    rw [hm]
  · exact Or.inr ⟨size, t, hs, hm, hf⟩

/-- One iteration counts the file discovered and counts it either processed or
failed, never both. -/
lemma scanStep_counters (s : ScannerState) (e : FSEntry) :
    (scanStep s e).2.total_discovered = s.total_discovered + 1
    ∧ (scanStep s e).2.total_processed + (scanStep s e).2.total_failed
        = s.total_processed + s.total_failed + 1 := by
  rcases scanStep_dichotomy s e with ⟨m, hm⟩ | ⟨size, t, hs, hm, hf⟩
  · rw [hm]
    refine ⟨rfl, ?_⟩
    show s.total_processed + (s.total_failed + 1) = s.total_processed + s.total_failed + 1
    omega
  · rw [scanStep_of_ok s e size t hf hs hm]
    refine ⟨rfl, ?_⟩
    show s.total_processed + 1 + s.total_failed = s.total_processed + s.total_failed + 1
    omega

lemma scanList_counters (entries : List FSEntry) : ∀ s : ScannerState,
    (scanList s entries).2.total_discovered = s.total_discovered + entries.length
    ∧ (scanList s entries).2.total_processed + (scanList s entries).2.total_failed
        = s.total_processed + s.total_failed + entries.length := by
  induction entries with
  | nil => intro s; simp [scanList]
  | cons e rest ih =>
    intro s
    have h1 := scanStep_counters s e
    have h2 := ih (scanStep s e).2
    simp only [scanList, List.length_cons]
    constructor
    · rw [h2.1, h1.1]
      omega
    · omega

lemma scanList_length (entries : List FSEntry) : ∀ s : ScannerState,
    ((scanList s entries).1).length = entries.length := by
  induction entries with
  | nil => intro s; simp [scanList]
  | cons e rest ih =>
    intro s
    simp [scanList, ih]

/-! ### The claims -/

/-- Claim C1: after any completed scan started from a freshly constructed
scanner, `total_discovered = total_processed + total_failed`; the check is run
after the traversal is exhausted (so `runScan` returns the yielded sequence
rather than an error) and again at summary retrieval; and whenever the
invariant is violated, both `_verify_counters` and `get_summary` raise the
`RuntimeError` counter-mismatch message instead of silently correcting the
counters. -/
theorem counter_invariant_verified :
    (∀ (root : Str) (mb : Nat) (entries : List FSEntry),
      (scanList (initScanner root mb) entries).2.total_discovered
        = (scanList (initScanner root mb) entries).2.total_processed
          + (scanList (initScanner root mb) entries).2.total_failed
      ∧ runScan (initScanner root mb) entries
          = (Except.ok (scanList (initScanner root mb) entries).1,
             (scanList (initScanner root mb) entries).2)
      ∧ (get_summary ((scanList (initScanner root mb) entries).2)).1
          = Except.ok
              { total_discovered := (scanList (initScanner root mb) entries).2.total_discovered
                total_processed := (scanList (initScanner root mb) entries).2.total_processed
                total_failed := (scanList (initScanner root mb) entries).2.total_failed
                extension_count := (scanList (initScanner root mb) entries).2.extension_count
                large_files := (scanList (initScanner root mb) entries).2.large_files
                duplicates := (scanList (initScanner root mb) entries).2.duplicates })
    ∧ (∀ s : ScannerState,
        s.total_discovered ≠ s.total_processed + s.total_failed →
          verify_counters s = Except.error (counterMismatchMsg s)
          ∧ (get_summary s).1 = Except.error (counterMismatchMsg s)) := by
  constructor
  · intro root mb entries
    have h := scanList_counters entries (initScanner root mb)
    have hinv : (scanList (initScanner root mb) entries).2.total_discovered
        = (scanList (initScanner root mb) entries).2.total_processed
          + (scanList (initScanner root mb) entries).2.total_failed := by
      have h0d : (initScanner root mb).total_discovered = 0 := rfl
      have h0p : (initScanner root mb).total_processed = 0 := rfl
      have h0f : (initScanner root mb).total_failed = 0 := rfl
      omega
    have hok : verify_counters (scanList (initScanner root mb) entries).2
        = Except.ok () := by
      unfold verify_counters
      rw [if_neg (not_not_intro hinv)]
    refine ⟨hinv, ?_, ?_⟩
    · simp only [runScan]
      rw [hok]
    · unfold get_summary
      rw [hok]
  · intro s hne
    have herr : verify_counters s = Except.error (counterMismatchMsg s) := by
      unfold verify_counters
      rw [if_pos hne]
    refine ⟨herr, ?_⟩
    unfold get_summary
    rw [herr]

/-- Claim C1, witness: a state whose counters disagree makes
`_verify_counters` and `get_summary` raise. -/
theorem counter_invariant_verified_witness :
    ({ initScanner (str "/r") 10 with
        total_discovered := 1 } : ScannerState).total_discovered
      ≠ ({ initScanner (str "/r") 10 with
            total_discovered := 1 } : ScannerState).total_processed
        + ({ initScanner (str "/r") 10 with
              total_discovered := 1 } : ScannerState).total_failed
    ∧ verify_counters { initScanner (str "/r") 10 with total_discovered := 1 }
        = Except.error
            (counterMismatchMsg { initScanner (str "/r") 10 with total_discovered := 1 }) :=
  ⟨by decide,
   (counter_invariant_verified.2 { initScanner (str "/r") 10 with total_discovered := 1 }
     (by decide)).1⟩

/-- Claim C2: whenever metadata extraction raises for a discovered file, the
failure is recovered locally: `total_failed` is incremented, an error
diagnostic naming the file and the cause is logged, `None` is yielded in place
of a `FileRecord`, and the walk yields one slot for every walked entry, so the
traversal runs to completion instead of aborting. -/
theorem per_file_failure_recovered :
    (∀ (s : ScannerState) (e : FSEntry) (m : Str),
      (extract_metadata { s with total_discovered := s.total_discovered + 1 }
          (fullPath e) e).1 = Except.error m →
        scanStep s e =
          (none,
           { s with total_discovered := s.total_discovered + 1
                    total_failed := s.total_failed + 1
                    log := s.log ++ [failedLog (fullPath e) m] }))
    ∧ (∀ (s : ScannerState) (entries : List FSEntry),
        ((scanList s entries).1).length = entries.length) :=
  ⟨scanStep_of_error, fun s entries => scanList_length entries s⟩

/-- Claim C2, witness: a permission-denied stat failure on a concrete file is
counted, logged, and yielded as `None`. -/
theorem per_file_failure_recovered_witness :
    (extract_metadata
        { initScanner (str "/r") 10 with total_discovered := 1 }
        (fullPath { dir := str "/r", name := str "secret.txt"
                    sizeResult := Except.error (str "Permission denied")
                    mtimeResult := Except.ok 0 })
        { dir := str "/r", name := str "secret.txt"
          sizeResult := Except.error (str "Permission denied")
          mtimeResult := Except.ok 0 }).1
      = Except.error (str "Permission denied")
    ∧ scanStep (initScanner (str "/r") 10)
        { dir := str "/r", name := str "secret.txt"
          sizeResult := Except.error (str "Permission denied")
          mtimeResult := Except.ok 0 }
        = (none,
           { initScanner (str "/r") 10 with
              total_discovered := 1
              total_failed := 1
              log := [failedLog
                (fullPath { dir := str "/r", name := str "secret.txt"
                            sizeResult := Except.error (str "Permission denied")
                            mtimeResult := Except.ok 0 })
                (str "Permission denied")] }) :=
  ⟨by decide,
   per_file_failure_recovered.1 (initScanner (str "/r") 10)
     { dir := str "/r", name := str "secret.txt"
       sizeResult := Except.error (str "Permission denied")
       mtimeResult := Except.ok 0 }
     (str "Permission denied") (by decide)⟩

/-- Claim C9: extraction failure is atomic with respect to the success-path
aggregates: whenever `_extract_metadata` raises — simulated failure or stat
failure — the scanner state it leaves behind is exactly the state it was
given, so `extension_count`, `large_files` and `duplicates` are untouched. -/
theorem extraction_failure_atomic :
    ∀ (s : ScannerState) (p : Str) (e : FSEntry) (m : Str),
      (extract_metadata s p e).1 = Except.error m →
        (extract_metadata s p e).2 = s
        ∧ (extract_metadata s p e).2.extension_count = s.extension_count
        ∧ (extract_metadata s p e).2.large_files = s.large_files
        ∧ (extract_metadata s p e).2.duplicates = s.duplicates := by
  intro s p e m h
  have h2 := extract_error_snd s p e m h
  exact ⟨h2, by rw [h2], by rw [h2], by rw [h2]⟩

/-- Claim C9, witness: a concrete mtime-stat failure (the last read before the
first aggregate mutation) leaves the state untouched. -/
theorem extraction_failure_atomic_witness :
    (extract_metadata (initScanner (str "/r") 10) (str "/r/gone.txt")
        { dir := str "/r", name := str "gone.txt"
          sizeResult := Except.ok 7
          mtimeResult := Except.error (str "No such file or directory") }).1
      = Except.error (str "No such file or directory")
    ∧ (extract_metadata (initScanner (str "/r") 10) (str "/r/gone.txt")
        { dir := str "/r", name := str "gone.txt"
          sizeResult := Except.ok 7
          mtimeResult := Except.error (str "No such file or directory") }).2
      = initScanner (str "/r") 10 :=
  ⟨by decide,
   (extraction_failure_atomic (initScanner (str "/r") 10) (str "/r/gone.txt")
     { dir := str "/r", name := str "gone.txt"
       sizeResult := Except.ok 7
       mtimeResult := Except.error (str "No such file or directory") }
     (str "No such file or directory") (by decide)).1⟩

/-- A path found in a group of `dappend k p m` is either the appended path or
was already in some group of `m`. -/
lemma dappend_mem_paths (k p : Str) (m : List (Str × List Str)) :
    ∀ kv ∈ dappend k p m, ∀ q ∈ kv.2, q = p ∨ ∃ kv2, kv2 ∈ m ∧ q ∈ kv2.2 := by
  induction m with
  | nil =>
    intro kv hkv q hq
    simp only [dappend, List.mem_singleton] at hkv
    subst hkv
    simp only [List.mem_singleton] at hq
    exact Or.inl hq
  | cons kv0 rest ih =>
    obtain ⟨k2, v⟩ := kv0
    intro kv hkv q hq
    by_cases hk : k2 = k
    · simp only [dappend, if_pos hk, List.mem_cons] at hkv
      rcases hkv with rfl | hkv
      · simp only [List.mem_append, List.mem_singleton] at hq
        rcases hq with hq | hq
        · exact Or.inr ⟨(k2, v), List.mem_cons_self _ _, hq⟩
        · exact Or.inl hq
      · exact Or.inr ⟨kv, List.mem_cons_of_mem _ hkv, hq⟩
    · simp only [dappend, if_neg hk, List.mem_cons] at hkv
      rcases hkv with rfl | hkv
      · exact Or.inr ⟨(k2, v), List.mem_cons_self _ _, hq⟩
      · rcases ih kv hkv q hq with hh | ⟨kv2, hkv2, hq2⟩
        · exact Or.inl hh
        · exact Or.inr ⟨kv2, List.mem_cons_of_mem _ hkv2, hq2⟩

/-- No path stored in the large-file list or in any duplicate group has a
base name containing "fail" case-insensitively. -/
def NoFailAgg (s : ScannerState) : Prop :=
  (∀ q ∈ s.large_files, hasSubstr (str "fail") (toLowerStr (basenameL q)) = false)
  ∧ (∀ kv ∈ s.duplicates, ∀ q ∈ kv.2,
      hasSubstr (str "fail") (toLowerStr (basenameL q)) = false)

lemma scanStep_noFail (s : ScannerState) (e : FSEntry) (h : NoFailAgg s) :
    NoFailAgg (scanStep s e).2 := by
  rcases scanStep_dichotomy s e with ⟨m, hm⟩ | ⟨size, t, hs, hm, hf⟩
  · rw [hm]
    exact h
  · rw [scanStep_of_ok s e size t hf hs hm]
    obtain ⟨h1, h2⟩ := h
    constructor
    · show ∀ q ∈ (if size = 0 then s.large_files
        else if s.large_file_threshold_bytes < size then s.large_files ++ [fullPath e]
        else s.large_files), hasSubstr (str "fail") (toLowerStr (basenameL q)) = false
      intro q hq
      by_cases hz : size = 0
      · rw [if_pos hz] at hq
        exact h1 q hq
      · rw [if_neg hz] at hq
        by_cases hl : s.large_file_threshold_bytes < size
        · rw [if_pos hl] at hq
          simp only [List.mem_append, List.mem_singleton] at hq
          rcases hq with hq | rfl
          · exact h1 q hq
          · exact hf
        · rw [if_neg hl] at hq
          exact h1 q hq
    · show ∀ kv ∈ dappend (basenameL (fullPath e)) (fullPath e) s.duplicates,
        ∀ q ∈ kv.2, hasSubstr (str "fail") (toLowerStr (basenameL q)) = false
      intro kv hkv q hq
      rcases dappend_mem_paths _ _ s.duplicates kv hkv q hq with rfl | ⟨kv2, hkv2, hq2⟩
      · exact hf
      · exact h2 kv2 hkv2 q hq2

lemma scanList_noFail (entries : List FSEntry) :
    ∀ s : ScannerState, NoFailAgg s → NoFailAgg (scanList s entries).2 := by
  induction entries with
  | nil => intro s h; exact h
  | cons e rest ih =>
    intro s h
    exact ih (scanStep s e).2 (scanStep_noFail s e h)

/-- Claim C3: for a walked file whose base name contains "fail"
case-insensitively, extraction always raises the simulated-failure
`RuntimeError`, so the iteration counts the file as failed and never as
processed, and none of the success-path aggregates (extension index,
large-file list, duplicate index) receives it; globally, after any fresh
scan, every path held by the large-file list or the duplicate index has a
base name without a case-insensitive "fail" substring. -/
theorem simulated_failure_never_aggregated :
    (∀ (s : ScannerState) (e : FSEntry),
      (∀ c ∈ e.name, c ≠ '/') →
      hasSubstr (str "fail") (toLowerStr e.name) = true →
        (extract_metadata { s with total_discovered := s.total_discovered + 1 }
            (fullPath e) e).1 = Except.error simFailMsg
        ∧ (scanStep s e).1 = none
        ∧ (scanStep s e).2.total_failed = s.total_failed + 1
        ∧ (scanStep s e).2.total_processed = s.total_processed
        ∧ (scanStep s e).2.extension_count = s.extension_count
        ∧ (scanStep s e).2.large_files = s.large_files
        ∧ (scanStep s e).2.duplicates = s.duplicates)
    ∧ (∀ (root : Str) (mb : Nat) (entries : List FSEntry),
        (∀ q ∈ (scanList (initScanner root mb) entries).2.large_files,
            hasSubstr (str "fail") (toLowerStr (basenameL q)) = false)
        ∧ (∀ kv ∈ (scanList (initScanner root mb) entries).2.duplicates,
            ∀ q ∈ kv.2,
              hasSubstr (str "fail") (toLowerStr (basenameL q)) = false)) := by
  constructor
  · intro s e hn hfail
    have hb : basenameL (fullPath e) = e.name := basenameL_osJoin e.dir e.name hn
    have hx : (extract_metadata { s with total_discovered := s.total_discovered + 1 }
        (fullPath e) e).1 = Except.error simFailMsg := by
      unfold extract_metadata
      rw [hb, hfail]
      simp
    have hstep := scanStep_of_error s e simFailMsg hx
    rw [hstep]
    exact ⟨hx, rfl, rfl, rfl, rfl, rfl, rfl⟩
  · intro root mb entries
    refine scanList_noFail entries (initScanner root mb) ⟨?_, ?_⟩
    · intro q hq
      cases hq
    · intro kv hkv
      cases hkv

/-- Claim C3, witness: `fail_test.txt` raises, is counted failed, and touches
no aggregate. -/
theorem simulated_failure_never_aggregated_witness :
    (∀ c ∈ (str "fail_test.txt"), c ≠ '/')
    ∧ hasSubstr (str "fail") (toLowerStr (str "fail_test.txt")) = true
    ∧ (scanStep (initScanner (str "/r") 10)
        { dir := str "/r", name := str "fail_test.txt"
          sizeResult := Except.ok 3, mtimeResult := Except.ok 0 }).2.total_failed
      = (initScanner (str "/r") 10).total_failed + 1 :=
  ⟨by decide, by decide,
   (simulated_failure_never_aggregated.1 (initScanner (str "/r") 10)
     { dir := str "/r", name := str "fail_test.txt"
       sizeResult := Except.ok 3, mtimeResult := Except.ok 0 }
     (by decide) (by decide)).2.2.1⟩

/-- Claim C4: the megabyte threshold is converted to bytes exactly once, at
construction; a successfully extracted file whose size equals the byte
threshold is not added to the large-file list (the comparison is strict),
while a file one byte above the threshold is appended together with the
large-file warning diagnostic. -/
theorem large_file_threshold_strict :
    (∀ (root : Str) (mb : Nat),
        (initScanner root mb).large_file_threshold_bytes = mb * 1024 * 1024)
    ∧ (∀ (s : ScannerState) (p : Str) (e : FSEntry) (t : Nat),
        hasSubstr (str "fail") (toLowerStr (basenameL p)) = false →
        e.sizeResult = Except.ok s.large_file_threshold_bytes →
        e.mtimeResult = Except.ok t →
          (extract_metadata s p e).2.large_files = s.large_files)
    ∧ (∀ (s : ScannerState) (p : Str) (e : FSEntry) (t : Nat),
        hasSubstr (str "fail") (toLowerStr (basenameL p)) = false →
        e.sizeResult = Except.ok (s.large_file_threshold_bytes + 1) →
        e.mtimeResult = Except.ok t →
          (extract_metadata s p e).2.large_files = s.large_files ++ [p]
          ∧ (extract_metadata s p e).2.log
              = s.log ++ [largeFileWarning s.large_file_threshold_bytes p
                  (s.large_file_threshold_bytes + 1)]) := by
  refine ⟨fun root mb => rfl, ?_, ?_⟩
  · intro s p e t hf hs hm
    rw [extract_ok_eq s p e s.large_file_threshold_bytes t hf hs hm]
    by_cases hz : s.large_file_threshold_bytes = 0
    · simp [hz]
    · simp [hz]
  · intro s p e t hf hs hm
    rw [extract_ok_eq s p e (s.large_file_threshold_bytes + 1) t hf hs hm]
    constructor
    · simp
    · simp

/-- Claim C4, witness: with a 10 MB threshold, a 10485760-byte file is not
flagged large while a 10485761-byte file is flagged and logged. -/
theorem large_file_threshold_strict_witness :
    hasSubstr (str "fail") (toLowerStr (basenameL (str "/r/big.bin"))) = false
    ∧ (extract_metadata (initScanner (str "/r") 10) (str "/r/big.bin")
        { dir := str "/r", name := str "big.bin"
          sizeResult := Except.ok 10485760, mtimeResult := Except.ok 0 }).2.large_files
      = (initScanner (str "/r") 10).large_files
    ∧ (extract_metadata (initScanner (str "/r") 10) (str "/r/big.bin")
        { dir := str "/r", name := str "big.bin"
          sizeResult := Except.ok 10485761, mtimeResult := Except.ok 0 }).2.large_files
      = (initScanner (str "/r") 10).large_files ++ [str "/r/big.bin"] := by
  refine ⟨by decide, ?_, ?_⟩
  · exact large_file_threshold_strict.2.1 (initScanner (str "/r") 10) (str "/r/big.bin")
      { dir := str "/r", name := str "big.bin"
        sizeResult := Except.ok 10485760, mtimeResult := Except.ok 0 } 0
      (by decide) (by decide) (by decide)
  · exact (large_file_threshold_strict.2.2 (initScanner (str "/r") 10) (str "/r/big.bin")
      { dir := str "/r", name := str "big.bin"
        sizeResult := Except.ok 10485761, mtimeResult := Except.ok 0 } 0
      (by decide) (by decide) (by decide)).1

/-- Claim C5, counterexample: for the file `a.txt` the text after the last
dot of the base name is `txt`, but the record's extension field is `.txt` —
`os.path.splitext` keeps the dot, so the claim as stated is false. -/
theorem extension_text_after_dot_cex :
    (Except.map FileRecord.extension
      (extract_metadata (initScanner (str "/r") 10) (str "/r/a.txt")
        { dir := str "/r", name := str "a.txt"
          sizeResult := Except.ok 5, mtimeResult := Except.ok 0 }).1)
      = Except.ok (str ".txt")
    ∧ ¬ (str ".txt" = str "txt") := by
  exact ⟨by decide, by decide⟩

/-- Claim C5 as amended: for every successfully extracted file the record's
`extension` field is the `os.path.splitext` suffix of the base name — the
segment from the last dot onward, dot included, except that a dot preceded
only by dots (e.g. a leading dot) starts no extension — with the fixed
sentinel `<no-ext>` when that suffix is empty; and the `modified` field is the
last-modified timestamp rendered at seconds resolution in the fixed format
`YYYY-MM-DD HH:MM:SS`.  The concrete conjuncts exhibit the dot-keeping
extension, the sentinel, and the timestamp format. -/
theorem extracted_record_fields :
    (∀ (s : ScannerState) (p : Str) (e : FSEntry) (size t : Nat),
      hasSubstr (str "fail") (toLowerStr (basenameL p)) = false →
      e.sizeResult = Except.ok size →
      e.mtimeResult = Except.ok t →
        (extract_metadata s p e).1
          = Except.ok { path := p, size := size, extension := extOrSentinel p
                        modified := formatTimestamp t })
    ∧ extOrSentinel (str "/r/report.txt") = str ".txt"
    ∧ extOrSentinel (str "/r/README") = str "<no-ext>"
    ∧ extOrSentinel (str "/r/.bashrc") = str "<no-ext>"
    ∧ formatTimestamp 0 = str "1970-01-01 00:00:00"
    ∧ formatTimestamp 1700000000 = str "2023-11-14 22:13:20" := by
  refine ⟨?_, by decide, by decide, by decide, by decide, by decide⟩
  intro s p e size t hf hs hm
  rw [extract_ok_eq s p e size t hf hs hm]

/-- Claim C5 (amended), witness: the general field equation instantiated on a
concrete file. -/
theorem extracted_record_fields_witness :
    hasSubstr (str "fail") (toLowerStr (basenameL (str "/r/a.txt"))) = false
    ∧ (extract_metadata (initScanner (str "/r") 10) (str "/r/a.txt")
        { dir := str "/r", name := str "a.txt"
          sizeResult := Except.ok 5, mtimeResult := Except.ok 0 }).1
      = Except.ok { path := str "/r/a.txt", size := 5
                    extension := extOrSentinel (str "/r/a.txt")
                    modified := formatTimestamp 0 } :=
  ⟨by decide,
   extracted_record_fields.1 (initScanner (str "/r") 10) (str "/r/a.txt")
     { dir := str "/r", name := str "a.txt"
       sizeResult := Except.ok 5, mtimeResult := Except.ok 0 } 5 0
     (by decide) (by decide) (by decide)⟩

/-- Claim C7: a zero-byte file is still processed successfully — the
iteration yields its record, counts it processed, logs the zero-byte warning,
enters it in the extension and duplicate aggregates, and never adds it to the
large-file list. -/
theorem zero_byte_file_processed :
    ∀ (s : ScannerState) (e : FSEntry) (t : Nat),
      (∀ c ∈ e.name, c ≠ '/') →
      hasSubstr (str "fail") (toLowerStr e.name) = false →
      e.sizeResult = Except.ok 0 →
      e.mtimeResult = Except.ok t →
        (scanStep s e).1
          = some { path := fullPath e, size := 0
                   extension := extOrSentinel (fullPath e)
                   modified := formatTimestamp t }
        ∧ (scanStep s e).2.total_processed = s.total_processed + 1
        ∧ (scanStep s e).2.log = s.log ++ [zeroByteWarning (fullPath e)]
        ∧ (scanStep s e).2.extension_count
            = bump (extOrSentinel (fullPath e)) s.extension_count
        ∧ (scanStep s e).2.duplicates = dappend e.name (fullPath e) s.duplicates
        ∧ (scanStep s e).2.large_files = s.large_files := by
  intro s e t hn hfail hs hm
  have hb : basenameL (fullPath e) = e.name := basenameL_osJoin e.dir e.name hn
  have hf : hasSubstr (str "fail") (toLowerStr (basenameL (fullPath e))) = false := by
    rw [hb]
    exact hfail
  rw [scanStep_of_ok s e 0 t hf hs hm]
  refine ⟨rfl, rfl, by simp, rfl, ?_, by simp⟩
  show dappend (basenameL (fullPath e)) (fullPath e) s.duplicates
      = dappend e.name (fullPath e) s.duplicates
  rw [hb]

/-- Claim C7, witness: a concrete zero-byte file is processed and warned
about. -/
theorem zero_byte_file_processed_witness :
    ((∀ c ∈ (str "empty.txt"), c ≠ '/')
      ∧ hasSubstr (str "fail") (toLowerStr (str "empty.txt")) = false)
    ∧ (scanStep (initScanner (str "/r") 10)
        { dir := str "/r", name := str "empty.txt"
          sizeResult := Except.ok 0, mtimeResult := Except.ok 0 }).2.total_processed
      = (initScanner (str "/r") 10).total_processed + 1 :=
  ⟨⟨by decide, by decide⟩,
   (zero_byte_file_processed (initScanner (str "/r") 10)
     { dir := str "/r", name := str "empty.txt"
       sizeResult := Except.ok 0, mtimeResult := Except.ok 0 } 0
     (by decide) (by decide) (by decide) (by decide)).2.1⟩

/-- Over a whole walk, the duplicate-index group of a base name collects
exactly the full paths of the successfully processed files with that base
name, in traversal order, after whatever the group already held. -/
lemma scanList_dup_lookup (entries : List FSEntry) : ∀ (s : ScannerState) (k : Str),
    lookupD ((scanList s entries).2).duplicates k
      = lookupD s.duplicates k
        ++ ((scanList s entries).1.filterMap id).filterMap
            (fun r => if basenameL r.path = k then some r.path else none) := by
  induction entries with
  | nil => intro s k; simp [scanList]
  | cons e rest ih =>
    intro s k
    simp only [scanList]
    rcases scanStep_dichotomy s e with ⟨m, hm⟩ | ⟨size, t, hs, hm, hf⟩
    · simp only [hm, List.filterMap_cons, id]
      rw [ih]
    · rw [scanStep_of_ok s e size t hf hs hm]
      simp only [List.filterMap_cons, id]
      rw [ih]
      by_cases hbk : basenameL (fullPath e) = k
      · simp only [hbk, if_pos rfl]
        rw [lookupD_dappend_self]
        simp
      · simp only [if_neg hbk]
        rw [lookupD_dappend_other _ _ _ _ (fun hh => hbk (Eq.symm hh))]

/-- Claim C6: every successfully processed file has its full path appended to
the duplicate index under its base filename (singletons included — the raw
index filters nothing); appends land under exactly their own key, so after a
fresh scan each base name's group holds precisely the full paths of the
processed files sharing that name; and the duplicate report — both the
logging helper and the report writer's view — emits only groups with more
than one path. -/
theorem duplicate_index_grouping :
    (∀ (s : ScannerState) (p : Str) (e : FSEntry) (size t : Nat),
      hasSubstr (str "fail") (toLowerStr (basenameL p)) = false →
      e.sizeResult = Except.ok size →
      e.mtimeResult = Except.ok t →
        (extract_metadata s p e).2.duplicates = dappend (basenameL p) p s.duplicates)
    ∧ (∀ (m : List (Str × List Str)) (k p : Str),
        lookupD (dappend k p m) k = lookupD m k ++ [p])
    ∧ (∀ (m : List (Str × List Str)) (k p k2 : Str), k2 ≠ k →
        lookupD (dappend k p m) k2 = lookupD m k2)
    ∧ (∀ (root : Str) (mb : Nat) (entries : List FSEntry) (k : Str),
        lookupD ((scanList (initScanner root mb) entries).2).duplicates k
          = ((scanList (initScanner root mb) entries).1.filterMap id).filterMap
              (fun r => if basenameL r.path = k then some r.path else none))
    ∧ (∀ (dups : List (Str × List Str)) (k : Str) (ps : List Str),
        (k, ps) ∈ duplicatesView dups ↔ ((k, ps) ∈ dups ∧ 1 < ps.length))
    ∧ (∀ s : ScannerState,
        (report_duplicates s).1
          = (duplicatesView s.duplicates).map (fun kv =>
              { level := LogLevel.info
                msg := str "Duplicate → " ++ kv.1 ++ str ": " ++ reprPaths kv.2 })) := by
  refine ⟨?_, ?_, ?_, ?_, ?_, ?_⟩
  · intro s p e size t hf hs hm
    rw [extract_ok_eq s p e size t hf hs hm]
  · intro m k p
    exact lookupD_dappend_self k p m
  · intro m k p k2 h
    exact lookupD_dappend_other k p k2 m h
  · intro root mb entries k
    rw [scanList_dup_lookup entries (initScanner root mb) k]
    rfl
  · intro dups k ps
    simp [duplicatesView, List.mem_filter]
  · intro s
    rfl

/-- Claim C6, witness: a processed singleton is present in the raw index
under its base name. -/
theorem duplicate_index_grouping_witness :
    hasSubstr (str "fail") (toLowerStr (basenameL (str "/r/a.txt"))) = false
    ∧ (extract_metadata (initScanner (str "/r") 10) (str "/r/a.txt")
        { dir := str "/r", name := str "a.txt"
          sizeResult := Except.ok 5, mtimeResult := Except.ok 0 }).2.duplicates
      = dappend (basenameL (str "/r/a.txt")) (str "/r/a.txt")
          (initScanner (str "/r") 10).duplicates :=
  ⟨by decide,
   duplicate_index_grouping.1 (initScanner (str "/r") 10) (str "/r/a.txt")
     { dir := str "/r", name := str "a.txt"
       sizeResult := Except.ok 5, mtimeResult := Except.ok 0 } 5 0
     (by decide) (by decide) (by decide)⟩

/-- Claim C8: the read-only operations mutate neither counters nor indices —
`get_summary` returns the scanner state unchanged, the two logging helpers
change no counter and no aggregate — and retrieving the summary twice in
succession yields structurally identical results. -/
theorem read_only_ops_idempotent :
    ∀ s : ScannerState,
      (get_summary s).2 = s
      ∧ (get_summary ((get_summary s).2)).1 = (get_summary s).1
      ∧ (report_summary s).2.total_discovered = s.total_discovered
      ∧ (report_summary s).2.total_processed = s.total_processed
      ∧ (report_summary s).2.total_failed = s.total_failed
      ∧ (report_summary s).2.extension_count = s.extension_count
      ∧ (report_summary s).2.large_files = s.large_files
      ∧ (report_summary s).2.duplicates = s.duplicates
      ∧ (report_duplicates s).2.total_discovered = s.total_discovered
      ∧ (report_duplicates s).2.total_processed = s.total_processed
      ∧ (report_duplicates s).2.total_failed = s.total_failed
      ∧ (report_duplicates s).2.extension_count = s.extension_count
      ∧ (report_duplicates s).2.large_files = s.large_files
      ∧ (report_duplicates s).2.duplicates = s.duplicates :=
  fun _ =>
    ⟨rfl, rfl, rfl, rfl, rfl, rfl, rfl, rfl, rfl, rfl, rfl, rfl, rfl, rfl⟩

/-- The combined aggregate-size invariant of claim C10. -/
def AggInv (s : ScannerState) : Prop :=
  sumCounts s.extension_count = s.total_processed
  ∧ dupTotal s.duplicates = s.total_processed
  ∧ s.large_files.length ≤ s.total_processed

lemma scanStep_agg (s : ScannerState) (e : FSEntry) (h : AggInv s) :
    AggInv (scanStep s e).2 := by
  rcases scanStep_dichotomy s e with ⟨m, hm⟩ | ⟨size, t, hs, hm, hf⟩
  · rw [hm]
    exact h
  · rw [scanStep_of_ok s e size t hf hs hm]
    obtain ⟨h1, h2, h3⟩ := h
    refine ⟨?_, ?_, ?_⟩
    · show sumCounts (bump (extOrSentinel (fullPath e)) s.extension_count)
        = s.total_processed + 1
      rw [bump_sum, h1]
    · show dupTotal (dappend (basenameL (fullPath e)) (fullPath e) s.duplicates)
        = s.total_processed + 1
      rw [dappend_total, h2]
    · show (if size = 0 then s.large_files
        else if s.large_file_threshold_bytes < size then s.large_files ++ [fullPath e]
        else s.large_files).length ≤ s.total_processed + 1
      by_cases hz : size = 0
      · rw [if_pos hz]
        omega
      · rw [if_neg hz]
        by_cases hl : s.large_file_threshold_bytes < size
        · rw [if_pos hl]
          simp only [List.length_append, List.length_singleton]
          omega
        · rw [if_neg hl]
          omega

lemma scanList_agg (entries : List FSEntry) :
    ∀ s : ScannerState, AggInv s → AggInv (scanList s entries).2 := by
  induction entries with
  | nil => intro s h; exact h
  | cons e rest ih =>
    intro s h
    exact ih (scanStep s e).2 (scanStep_agg s e h)

/-- Claim C10: after any completed scan from a fresh scanner, every successful
extraction contributed exactly one extension increment and one duplicate-index
append and at most one large-file append: the extension counts sum to
`total_processed`, the duplicate index holds `total_processed` paths in all,
and the large-file list has at most `total_processed` entries. -/
theorem aggregates_match_processed :
    ∀ (root : Str) (mb : Nat) (entries : List FSEntry),
      sumCounts ((scanList (initScanner root mb) entries).2).extension_count
        = ((scanList (initScanner root mb) entries).2).total_processed
      ∧ dupTotal ((scanList (initScanner root mb) entries).2).duplicates
        = ((scanList (initScanner root mb) entries).2).total_processed
      ∧ ((scanList (initScanner root mb) entries).2).large_files.length
        ≤ ((scanList (initScanner root mb) entries).2).total_processed := by
  intro root mb entries
  exact scanList_agg entries (initScanner root mb) ⟨rfl, rfl, Nat.le_refl 0⟩
